import Mathlib

/-!
Verification development for the Glommadyppen water-temperature prediction app
(`src/streamlit_app.py`).

Shallow embedding conventions:
* Timestamps are rationals measured in hours (pandas `Timedelta(hours=h)` becomes
  subtraction of `h`); temperature and wind values are rationals.
* A pandas DataFrame of observations (`time`, `value`, `quality` columns) is a
  `List Obs`; a missing quality code (NaN) is `Option.none`.
* The weather-forecast frame is projected to the fields the analysis functions
  inspect: its row count and its `southerly_wind` column (present or absent).
* `df.sort_values('time')` is modelled as a deterministic stable insertion sort
  by timestamp; `Series.idxmin` is the first index attaining the minimum, and
  `.iloc[0]` after a boolean filter is `List.find?`.
-/

namespace Glommadyppen

/-- One row of an NVE observation frame: `time`, `value`, `quality` columns.
A record whose quality code is absent (NaN in pandas) carries `none`. -/
structure Obs where
  time : ℚ
  value : ℚ
  quality : Option ℤ
deriving DecidableEq, Repr

/-- `TRAVEL_TIME_HOURS = 25` (Vorma to Fetsund). -/
def TRAVEL_TIME_HOURS : ℚ := 25

/-- `TEMPERATURE_SURVIVAL = 0.14` (14% of a drop survives dilution). -/
def TEMPERATURE_SURVIVAL : ℚ := 14/100

/-- Sum of a list of rationals (`Series.sum`). -/
def listSum (l : List ℚ) : ℚ := l.foldr (· + ·) 0

/-- Mean of a list of rationals (`Series.mean`). -/
def listMean (l : List ℚ) : ℚ := listSum l / (l.length : ℚ)

/-- `df['time'].max()` over an observation frame. -/
def maxTime : List Obs → ℚ
  | [] => 0
  | [o] => o.time
  | o :: r :: rs => max o.time (maxTime (r :: rs))

/-- `recent['value'].max()`. -/
def maxValue : List Obs → ℚ
  | [] => 0
  | [o] => o.value
  | o :: r :: rs => max o.value (maxValue (r :: rs))

/-- `recent['value'].min()`. -/
def minValue : List Obs → ℚ
  | [] => 0
  | [o] => o.value
  | o :: r :: rs => min o.value (minValue (r :: rs))

/-- Insert an observation into a time-sorted list, before the first entry with a
timestamp at or above its own (stable insertion). -/
def insertByTime (o : Obs) : List Obs → List Obs
  | [] => [o]
  | x :: xs => if o.time ≤ x.time then o :: x :: xs else x :: insertByTime o xs

/-- `df.sort_values('time')`: deterministic stable sort ascending by timestamp. -/
def sortByTime : List Obs → List Obs
  | [] => []
  | x :: xs => insertByTime x (sortByTime xs)

/-- `series.isin(accepted)` applied to the optional quality code of one record:
pandas evaluates NaN-against-list membership to `False`, so an absent code fails
the test. -/
def quality_isin (q : Option ℤ) (accepted : List ℤ) : Bool :=
  match q with
  | some v => accepted.contains v
  | none => false

/-- Quality codes retained by `fetch_nve_data`: `df['quality'].isin([1, 2])`. -/
def ACCEPTED_QUALITIES : List ℤ := [1, 2]

/-- The normalization performed on a parsed NVE response inside `fetch_nve_data`
(lines 101-112 of `streamlit_app.py`): keep records with `time >= cutoff_time`
where `cutoff_time = now - hours_back`, keep records whose quality code passes
`isin([1, 2])`, then sort ascending by time. -/
def normalize_observations (raw : List Obs) (now : ℚ) (hours_back : ℚ) : List Obs :=
  let cutoff_time := now - hours_back
  let in_window := raw.filter (fun o => cutoff_time ≤ o.time)
  let quality_ok := in_window.filter (fun o => quality_isin o.quality ACCEPTED_QUALITIES)
  sortByTime quality_ok

/-- Outcome of the HTTP request + JSON parsing that `fetch_nve_data` wraps in
`try/except`: a parsed observation list, a response with no data, an
`HTTPError` with a status code, or any other exception with its message. -/
inductive FetchOutcome where
  | success (observations : List Obs)
  | noData
  | httpError (status : ℕ)
  | exceptionFail (message : String)
deriving DecidableEq, Repr

/-- `fetch_nve_data` after the transport outcome is fixed: returns the frame
together with the diagnostic string shown via `st.warning` (or `none` when the
function stays silent). An HTTP 400 is treated as a station winter shutdown and
returns the empty frame with no diagnostic; other HTTP errors and all other
exceptions return the empty frame plus a warning message. -/
def fetch_nve_data (outcome : FetchOutcome) (now : ℚ) (hours_back : ℚ) :
    List Obs × Option String :=
  match outcome with
  | .success observations => (normalize_observations observations now hours_back, none)
  | .noData => ([], none)
  | .httpError status =>
      if status = 400 then ([], none)
      else ([], some ("NVE API error: " ++ toString status))
  | .exceptionFail message => ([], some ("Could not fetch data: " ++ message.take 100))

/-- One row of the weather forecast frame: wind speed and direction. -/
structure WindRow where
  wind_speed : ℚ
  wind_direction : ℚ
deriving DecidableEq, Repr

/-- The `southerly_wind` value of one row, from `calculate_southerly_wind`:
`is_southerly = (wind_direction >= 135) & (wind_direction <= 225)` and
`southerly_wind = np.where(is_southerly, wind_speed, 0)`. -/
def southerly_component (r : WindRow) : ℚ :=
  if 135 ≤ r.wind_direction ∧ r.wind_direction ≤ 225 then r.wind_speed else 0

/-- A weather frame before `calculate_southerly_wind`: its rows and whether the
`wind_direction` column exists. -/
structure WindDF where
  rows : List WindRow
  has_direction : Bool
deriving DecidableEq, Repr

/-- A weather frame as `assess_risk_level` sees it: the number of rows and the
`southerly_wind` column when present (`none` models a frame without that
column). -/
structure Forecast where
  n_rows : ℕ
  southerly : Option (List ℚ)
deriving DecidableEq, Repr

/-- `calculate_southerly_wind`: if the frame is empty or has no `wind_direction`
column it is returned unchanged (no `southerly_wind` column); otherwise the
`southerly_wind` column is computed row-wise. -/
def calculate_southerly_wind (df : WindDF) : Forecast :=
  if df.rows.isEmpty || !df.has_direction then
    { n_rows := df.rows.length, southerly := none }
  else
    { n_rows := df.rows.length, southerly := some (df.rows.map southerly_component) }

/-- A temperature-drop event as returned by `detect_temperature_drop`. -/
structure DropEvent where
  magnitude : ℚ
  max_temp : ℚ
  min_temp : ℚ
  max_time : ℚ
  min_time : ℚ
  duration_hours : ℚ
deriving DecidableEq, Repr

/-- `recent[recent['value'] == v]['time'].iloc[0]`: timestamp of the first row
(in the list order) whose value equals `v`. The fallback 0 is unreachable when
`v` is attained in the list. -/
def firstTimeWith (v : ℚ) (l : List Obs) : ℚ :=
  match l.find? (fun o => decide (o.value = v)) with
  | some o => o.time
  | none => 0

/-- `detect_temperature_drop(df, threshold_C=2.0, window_hours=6)`. -/
def detect_temperature_drop (df : List Obs) (threshold_C : ℚ := 2)
    (window_hours : ℚ := 6) : Option DropEvent :=
  if df.length < 2 then none
  else
    let sorted := sortByTime df
    let recent_cutoff := maxTime sorted - window_hours
    let recent := sorted.filter (fun o => recent_cutoff ≤ o.time)
    if recent.length < 2 then none
    else
      let max_temp := maxValue recent
      let min_temp := minValue recent
      let drop := max_temp - min_temp
      if threshold_C ≤ drop then
        some {
          magnitude := drop
          max_temp := max_temp
          min_temp := min_temp
          max_time := firstTimeWith max_temp recent
          min_time := firstTimeWith min_temp recent
          duration_hours := firstTimeWith min_temp recent - firstTimeWith max_temp recent
        }
      else none

/-- The step function inside `calculate_confidence` mapping the age (in hours)
of the latest observation to a confidence factor. -/
def time_confidence (hours_old : ℚ) : ℚ :=
  if hours_old < 1 then 1
  else if hours_old < 6 then 9/10
  else if hours_old < 24 then 7/10
  else 1/2

/-- `calculate_confidence(df, target_time)`: 0.0 on an empty frame, else
`time_confidence(target_time - df['time'].max()) * min(len(df)/72, 1.0)`. -/
def calculate_confidence (df : List Obs) (target_time : ℚ) : ℚ :=
  match df with
  | [] => 0
  | _ :: _ =>
      let hours_old := target_time - maxTime df
      let completeness := min ((df.length : ℚ) / 72) 1
      time_confidence hours_old * completeness

/-- `Series.idxmin` over `abs(df['time'] - prediction_time)`: the first
observation attaining the minimum absolute time distance, `none` on an empty
frame. -/
def closestObs (prediction_time : ℚ) : List Obs → Option Obs
  | [] => none
  | o :: rest =>
      match closestObs prediction_time rest with
      | none => some o
      | some b =>
          if |o.time - prediction_time| ≤ |b.time - prediction_time| then some o
          else some b

/-- The result dictionary of `predict_fetsund_temperature`. -/
structure Prediction where
  predicted_temp : ℚ
  vorma_temp : ℚ
  baseline_temp : ℚ
  anomaly : ℚ
  vorma_time : ℚ
  confidence : ℚ
deriving DecidableEq, Repr

/-- `predict_fetsund_temperature(vorma_temp_df, event_datetime)`: select the
observation closest to `event_datetime - 25h`, average the values of the
observations with `time >= vorma_time - 48h` as the baseline, and apply the 14%
survival rate to the anomaly. -/
def predict_fetsund_temperature (vorma_temp_df : List Obs) (event_datetime : ℚ) :
    Option Prediction :=
  let prediction_time := event_datetime - TRAVEL_TIME_HOURS
  match closestObs prediction_time vorma_temp_df with
  | none => none
  | some closest =>
      let vorma_temp := closest.value
      let vorma_time := closest.time
      let recent_48h := vorma_temp_df.filter (fun o => vorma_time - 48 ≤ o.time)
      let baseline_temp := listMean (recent_48h.map Obs.value)
      let anomaly := vorma_temp - baseline_temp
      let fetsund_anomaly := anomaly * TEMPERATURE_SURVIVAL
      let fetsund_temp := baseline_temp + fetsund_anomaly
      some {
        predicted_temp := fetsund_temp
        vorma_temp := vorma_temp
        baseline_temp := baseline_temp
        anomaly := anomaly
        vorma_time := vorma_time
        confidence := calculate_confidence vorma_temp_df prediction_time
      }

/-- `assess_risk_level(prediction, weather_forecast)`: `UNKNOWN` on a missing
prediction, otherwise the ordered threshold cascade, where `southerly_risk`
holds when the frame is non-empty, has a `southerly_wind` column, and the mean
of the first 48 rows of that column is at least 1.5 m/s. -/
def assess_risk_level (prediction : Option Prediction) (weather_forecast : Forecast) :
    String × String :=
  match prediction with
  | none => ("UNKNOWN", "gray")
  | some p =>
      let southerly_risk : Bool :=
        if weather_forecast.n_rows ≠ 0 then
          match weather_forecast.southerly with
          | some col => decide ((3 : ℚ)/2 ≤ listMean (col.take 48))
          | none => false
        else false
      if p.predicted_temp < 14 ∨ p.anomaly < -3 then
        ("HØYRISIKOGRUPPE", "#dc3545")
      else if p.predicted_temp < 16 ∨ p.anomaly < -2 ∨ southerly_risk = true then
        ("MODERAT RISIKO", "#ffc107")
      else if p.predicted_temp < 18 then
        ("LAV RISIKO", "#17a2b8")
      else
        ("GODE FORHOLD", "#28a745")

/-- Modelled from the spec's words, for comparison with the baseline that
`predict_fetsund_temperature` actually computes (claim C4): the mean over the
observations whose timestamps lie within the 48 hours preceding the selected
observation's timestamp, i.e. in the closed interval
`[selected_time - 48h, selected_time]`. -/
def baseline_spec_window (df : List Obs) (selected_time : ℚ) : ℚ :=
  listMean ((df.filter
    (fun o => selected_time - 48 ≤ o.time ∧ o.time ≤ selected_time)).map Obs.value)

/-- Two-point series: value 10 at hour 0, value 20 at hour 1. -/
def obsPair : List Obs := [⟨0, 10, none⟩, ⟨1, 20, none⟩]

/-- Single-point series: value 10 at hour 0. -/
def singleObs : List Obs := [⟨0, 10, none⟩]

/-- Rising two-point temperature series: 15 °C at hour 0, 20 °C at hour 1. -/
def risingPair : List Obs := [⟨0, 15, none⟩, ⟨1, 20, none⟩]

/-- Falling two-point temperature series: 20 °C at hour 0, 15 °C at hour 4. -/
def fallingPair : List Obs := [⟨0, 20, none⟩, ⟨4, 15, none⟩]

/-- The prediction produced on `obsPair` with target instant 25. -/
def predPair : Prediction :=
  { predicted_temp := 143/10, vorma_temp := 10, baseline_temp := 15, anomaly := -5,
    vorma_time := 0, confidence := 1/36 }

/-- The prediction produced on `singleObs` with target instant 25. -/
def predSingle : Prediction :=
  { predicted_temp := 10, vorma_temp := 10, baseline_temp := 10, anomaly := 0,
    vorma_time := 0, confidence := 1/72 }

/-- The drop event detected on `fallingPair` with the default parameters. -/
def dropPair : DropEvent :=
  { magnitude := 5, max_temp := 20, min_temp := 15, max_time := 0, min_time := 4,
    duration_hours := 4 }

/-- The trailing analysis window that `detect_temperature_drop` restricts to:
the time-sorted frame filtered to timestamps within `window_hours` of the
latest timestamp. -/
def recentWindow (df : List Obs) (window_hours : ℚ) : List Obs :=
  (sortByTime df).filter (fun o => maxTime (sortByTime df) - window_hours ≤ o.time)

/-- Raw provider records: one in-window record with an absent quality code and
one future-stamped record with an accepted quality code. -/
def rawMixed : List Obs := [⟨99, 5, none⟩, ⟨110, 6, some 1⟩]

/-! ### Helper lemmas about the embedded operations -/

theorem mem_insertByTime {a o : Obs} {l : List Obs} :
    a ∈ insertByTime o l ↔ a = o ∨ a ∈ l := by
  induction l with
  | nil => simp [insertByTime]
  | cons x xs ih =>
      by_cases h : o.time ≤ x.time
      · simp [insertByTime, h, List.mem_cons]
      · simp only [insertByTime, if_neg h, List.mem_cons, ih]
        tauto

theorem mem_sortByTime {a : Obs} {l : List Obs} : a ∈ sortByTime l ↔ a ∈ l := by
  induction l with
  | nil => simp [sortByTime]
  | cons x xs ih => simp [sortByTime, mem_insertByTime, ih]

theorem sorted_insertByTime {o : Obs} {l : List Obs}
    (h : List.Sorted (fun a b : Obs => a.time ≤ b.time) l) :
    List.Sorted (fun a b : Obs => a.time ≤ b.time) (insertByTime o l) := by
  induction l with
  | nil => simp [insertByTime]
  | cons x xs ih =>
      rw [List.sorted_cons] at h
      by_cases hc : o.time ≤ x.time
      · rw [insertByTime, if_pos hc, List.sorted_cons]
        refine ⟨?_, ?_⟩
        · intro b hb
          rcases List.mem_cons.mp hb with rfl | hb
          · exact hc
          · exact le_trans hc (h.1 b hb)
        · rw [List.sorted_cons]; exact h
      · rw [insertByTime, if_neg hc, List.sorted_cons]
        refine ⟨?_, ih h.2⟩
        intro b hb
        rcases mem_insertByTime.mp hb with rfl | hb
        · exact le_of_not_le hc
        · exact h.1 b hb

theorem sorted_sortByTime (l : List Obs) :
    List.Sorted (fun a b : Obs => a.time ≤ b.time) (sortByTime l) := by
  induction l with
  | nil => simp [sortByTime]
  | cons x xs ih => exact sorted_insertByTime ih

theorem sortByTime_eq_of_sorted {l : List Obs}
    (h : List.Sorted (fun a b : Obs => a.time ≤ b.time) l) : sortByTime l = l := by
  induction l with
  | nil => rfl
  | cons x xs ih =>
      rw [List.sorted_cons] at h
      rw [sortByTime, ih h.2]
      cases xs with
      | nil => rfl
      | cons y ys =>
          have hxy : x.time ≤ y.time := h.1 y (by simp)
          rw [insertByTime, if_pos hxy]

theorem closestObs_eq_none_iff {p : ℚ} {l : List Obs} :
    closestObs p l = none ↔ l = [] := by
  cases l with
  | nil => simp [closestObs]
  | cons o rest =>
      simp only [closestObs]
      rcases hr : closestObs p rest with _ | b
      · simp
      · by_cases hc : |o.time - p| ≤ |b.time - p| <;> simp [hc]

theorem closestObs_spec {p : ℚ} {l : List Obs} {o : Obs} (h : closestObs p l = some o) :
    o ∈ l ∧ ∀ x ∈ l, |o.time - p| ≤ |x.time - p| := by
  induction l generalizing o with
  | nil => simp [closestObs] at h
  | cons a rest ih =>
      rw [closestObs] at h
      rcases hr : closestObs p rest with _ | b
      · rw [hr] at h
        simp only [Option.some.injEq] at h
        subst h
        have hrest : rest = [] := closestObs_eq_none_iff.mp hr
        subst hrest
        refine ⟨by simp, ?_⟩
        intro x hx
        rcases List.mem_cons.mp hx with rfl | hx
        · exact le_refl _
        · simp at hx
      · rw [hr] at h
        dsimp only at h
        have hb := ih hr
        by_cases hc : |a.time - p| ≤ |b.time - p|
        · rw [if_pos hc] at h
          simp only [Option.some.injEq] at h
          subst h
          refine ⟨by simp, ?_⟩
          intro x hx
          rcases List.mem_cons.mp hx with rfl | hx
          · exact le_refl _
          · exact le_trans hc (hb.2 x hx)
        · rw [if_neg hc] at h
          simp only [Option.some.injEq] at h
          subst h
          refine ⟨List.mem_cons_of_mem _ hb.1, ?_⟩
          intro x hx
          rcases List.mem_cons.mp hx with rfl | hx
          · exact le_of_not_le hc
          · exact hb.2 x hx

theorem maxValue_mem {l : List Obs} (h : l ≠ []) : ∃ o ∈ l, o.value = maxValue l := by
  induction l with
  | nil => exact absurd rfl h
  | cons x xs ih =>
      cases xs with
      | nil => exact ⟨x, by simp, by simp [maxValue]⟩
      | cons y ys =>
          rcases ih (by simp) with ⟨b, hb, hbv⟩
          rcases le_total x.value (maxValue (y :: ys)) with hle | hle
          · exact ⟨b, List.mem_cons_of_mem _ hb,
              by rw [hbv, maxValue, max_eq_right hle]⟩
          · exact ⟨x, by simp, by rw [maxValue, max_eq_left hle]⟩

theorem minValue_mem {l : List Obs} (h : l ≠ []) : ∃ o ∈ l, o.value = minValue l := by
  induction l with
  | nil => exact absurd rfl h
  | cons x xs ih =>
      cases xs with
      | nil => exact ⟨x, by simp, by simp [minValue]⟩
      | cons y ys =>
          rcases ih (by simp) with ⟨b, hb, hbv⟩
          rcases le_total x.value (minValue (y :: ys)) with hle | hle
          · exact ⟨x, by simp, by rw [minValue, min_eq_left hle]⟩
          · exact ⟨b, List.mem_cons_of_mem _ hb,
              by rw [hbv, minValue, min_eq_right hle]⟩

theorem firstTimeWith_spec {v : ℚ} {l : List Obs} (h : ∃ o ∈ l, o.value = v) :
    ∃ o ∈ l, o.value = v ∧ firstTimeWith v l = o.time := by
  have hsome : (l.find? (fun o => decide (o.value = v))).isSome := by
    rw [List.find?_isSome]
    rcases h with ⟨o, hm, hv⟩
    exact ⟨o, hm, by simp [hv]⟩
  rcases ho : l.find? (fun o => decide (o.value = v)) with _ | o
  · rw [ho] at hsome; simp at hsome
  · have hp := List.find?_some ho
    have hm := List.mem_of_find?_eq_some ho
    simp only [decide_eq_true_eq] at hp
    exact ⟨o, hm, hp, by rw [firstTimeWith, ho]⟩

theorem quality_isin_accepted {q : Option ℤ} :
    quality_isin q ACCEPTED_QUALITIES = true ↔ ∃ v, q = some v ∧ (v = 1 ∨ v = 2) := by
  cases q with
  | none => simp [quality_isin]
  | some v => simp [quality_isin, ACCEPTED_QUALITIES]

theorem time_confidence_cases (h : ℚ) :
    time_confidence h = 1/2 ∨ time_confidence h = 7/10 ∨ time_confidence h = 9/10
      ∨ time_confidence h = 1 := by
  unfold time_confidence
  split_ifs <;> tauto

theorem time_confidence_nonneg (h : ℚ) : 0 ≤ time_confidence h := by
  unfold time_confidence
  split_ifs <;> norm_num

theorem time_confidence_le_one (h : ℚ) : time_confidence h ≤ 1 := by
  unfold time_confidence
  split_ifs <;> norm_num

theorem completeness_nonneg (n : ℕ) : 0 ≤ min ((n : ℚ) / 72) 1 :=
  le_min (div_nonneg (Nat.cast_nonneg n) (by norm_num)) zero_le_one

theorem calculate_confidence_nonneg (df : List Obs) (t : ℚ) :
    0 ≤ calculate_confidence df t := by
  cases df with
  | nil => simp [calculate_confidence]
  | cons x xs =>
      exact mul_nonneg (time_confidence_nonneg _) (completeness_nonneg _)

theorem calculate_confidence_le_one (df : List Obs) (t : ℚ) :
    calculate_confidence df t ≤ 1 := by
  cases df with
  | nil => simp [calculate_confidence]
  | cons x xs =>
      exact mul_le_one₀ (time_confidence_le_one _) (completeness_nonneg _)
        (min_le_right _ _)

theorem predict_spec {df : List Obs} {T : ℚ} {pr : Prediction}
    (h : predict_fetsund_temperature df T = some pr) :
    ∃ closest, closestObs (T - TRAVEL_TIME_HOURS) df = some closest
      ∧ pr.vorma_temp = closest.value
      ∧ pr.vorma_time = closest.time
      ∧ pr.baseline_temp
          = listMean ((df.filter (fun o => closest.time - 48 ≤ o.time)).map Obs.value)
      ∧ pr.anomaly = pr.vorma_temp - pr.baseline_temp
      ∧ pr.predicted_temp = pr.baseline_temp + pr.anomaly * TEMPERATURE_SURVIVAL
      ∧ pr.confidence = calculate_confidence df (T - TRAVEL_TIME_HOURS) := by
  unfold predict_fetsund_temperature at h
  dsimp only at h
  rcases hc : closestObs (T - TRAVEL_TIME_HOURS) df with _ | closest
  · rw [hc] at h; simp at h
  · rw [hc] at h
    dsimp only at h
    simp only [Option.some.injEq] at h
    subst h
    exact ⟨closest, rfl, rfl, rfl, rfl, rfl, rfl, rfl⟩

theorem detect_eq (df : List Obs) (thr win : ℚ) :
    detect_temperature_drop df thr win =
      if df.length < 2 then none
      else if (recentWindow df win).length < 2 then none
      else if thr ≤ maxValue (recentWindow df win) - minValue (recentWindow df win) then
        some {
          magnitude := maxValue (recentWindow df win) - minValue (recentWindow df win)
          max_temp := maxValue (recentWindow df win)
          min_temp := minValue (recentWindow df win)
          max_time := firstTimeWith (maxValue (recentWindow df win)) (recentWindow df win)
          min_time := firstTimeWith (minValue (recentWindow df win)) (recentWindow df win)
          duration_hours :=
            firstTimeWith (minValue (recentWindow df win)) (recentWindow df win)
              - firstTimeWith (maxValue (recentWindow df win)) (recentWindow df win) }
      else none := rfl

/-! ### Claim theorems -/

/-- C1: `predict_fetsund_temperature` returns no prediction if and only if the
upstream series is empty; on a non-empty series the result satisfies
`anomaly = selected_value - baseline` and
`predicted_temp = baseline + anomaly * 0.14` exactly, where the selected
observation has minimum absolute time distance to
`event_datetime - 25 hours` among all observations of the series. -/
theorem C1_predict_none_iff_empty_and_model (df : List Obs) (T : ℚ) :
    (predict_fetsund_temperature df T = none ↔ df = [])
    ∧ ∀ pr, predict_fetsund_temperature df T = some pr →
        pr.anomaly = pr.vorma_temp - pr.baseline_temp
        ∧ pr.predicted_temp = pr.baseline_temp + pr.anomaly * TEMPERATURE_SURVIVAL
        ∧ ∃ o ∈ df, pr.vorma_temp = o.value ∧ pr.vorma_time = o.time
            ∧ ∀ x ∈ df,
                |o.time - (T - TRAVEL_TIME_HOURS)| ≤ |x.time - (T - TRAVEL_TIME_HOURS)| := by
  constructor
  · rcases hc : closestObs (T - TRAVEL_TIME_HOURS) df with _ | closest
    · rw [closestObs_eq_none_iff] at hc
      subst hc
      simp [predict_fetsund_temperature, closestObs]
    · have hne : df ≠ [] := by
        intro he
        subst he
        simp [closestObs] at hc
      unfold predict_fetsund_temperature
      dsimp only
      rw [hc]
      simp [hne]
  · intro pr h
    rcases predict_spec h with ⟨closest, hc, hv, ht, _hb, ha, hp, _hconf⟩
    rcases closestObs_spec hc with ⟨hmem, hmin⟩
    exact ⟨ha, hp, closest, hmem, hv, ht, hmin⟩

/-- Witness for C1 at the concrete series `obsPair` and target instant 25. -/
theorem C1_witness :
    predPair.anomaly = predPair.vorma_temp - predPair.baseline_temp :=
  ((C1_predict_none_iff_empty_and_model obsPair 25).2 predPair (by
    norm_num [predict_fetsund_temperature, closestObs, obsPair, predPair, listMean, listSum,
      maxTime, calculate_confidence, time_confidence, TRAVEL_TIME_HOURS,
      TEMPERATURE_SURVIVAL, List.filter])).1

/-- C2: on a prediction and a forecast frame that is non-empty and carries the
southerly-wind column, `assess_risk_level` is the ordered first-match cascade
(HIGH = "HØYRISIKOGRUPPE" when `predicted_temp < 14` or `anomaly < -3`, then
MODERATE = "MODERAT RISIKO" when `predicted_temp < 16` or `anomaly < -2` or the
mean southerly wind over the next 48 forecast rows is at least 1.5 m/s, then
LOW = "LAV RISIKO" when `predicted_temp < 18`, else GOOD = "GODE FORHOLD");
and the result is UNKNOWN, with its distinct gray color, exactly when the
prediction is missing. -/
theorem C2_risk_cascade (p : Prediction) (f : Forecast) (col : List ℚ)
    (hcol : f.southerly = some col) (hrows : f.n_rows ≠ 0) :
    (assess_risk_level (some p) f =
      if p.predicted_temp < 14 ∨ p.anomaly < -3 then ("HØYRISIKOGRUPPE", "#dc3545")
      else if p.predicted_temp < 16 ∨ p.anomaly < -2
          ∨ (3 : ℚ)/2 ≤ listMean (col.take 48) then ("MODERAT RISIKO", "#ffc107")
      else if p.predicted_temp < 18 then ("LAV RISIKO", "#17a2b8")
      else ("GODE FORHOLD", "#28a745"))
    ∧ ∀ (pr : Option Prediction) (g : Forecast),
        (assess_risk_level pr g = ("UNKNOWN", "gray") ↔ pr = none) := by
  constructor
  · simp only [assess_risk_level, hcol, hrows, ne_eq, not_false_eq_true, if_true,
      decide_eq_true_eq]
  · intro pr g
    cases pr with
    | none => simp [assess_risk_level]
    | some q =>
        simp only [assess_risk_level, reduceCtorEq, iff_false]
        intro hh
        split_ifs at hh <;> simp at hh


/-- C2 witness: the UNKNOWN characterization applied with a concrete prediction
and a one-row forecast carrying the southerly column. -/
theorem C2_witness :
    (assess_risk_level none ⟨1, some [2]⟩ = ("UNKNOWN", "gray")
      ↔ (none : Option Prediction) = none) :=
  (C2_risk_cascade predPair ⟨1, some [2]⟩ [2] rfl (by norm_num)).2 none ⟨1, some [2]⟩

/-- C3 counterexample: the claim says a sample with direction exactly 225° has
southerly component 0, but `calculate_southerly_wind` uses the closed band
`135 ≤ direction ≤ 225`, so a 2 m/s wind from 225° gets southerly component
2, not 0. -/
theorem C3_counterexample :
    southerly_component ⟨2, 225⟩ = 2 ∧ ((2 : ℚ) ≠ 0) := by
  norm_num [southerly_component]

/-- C3 amended: the southerly component equals the wind speed on the CLOSED
band `[135, 225]` degrees and 0 outside it; in particular direction exactly
225° yields the full wind speed, and on a non-empty frame with a direction
column the `southerly_wind` column is this row-wise map. -/
theorem C3_southerly_closed_band (r : WindRow) :
    (135 ≤ r.wind_direction ∧ r.wind_direction ≤ 225 →
        southerly_component r = r.wind_speed)
    ∧ (¬(135 ≤ r.wind_direction ∧ r.wind_direction ≤ 225) →
        southerly_component r = 0)
    ∧ southerly_component ⟨r.wind_speed, 225⟩ = r.wind_speed
    ∧ ∀ df : WindDF, df.has_direction = true → df.rows ≠ [] →
        (calculate_southerly_wind df).southerly
          = some (df.rows.map southerly_component) := by
  refine ⟨?_, ?_, ?_, ?_⟩
  · intro h
    rw [southerly_component, if_pos h]
  · intro h
    rw [southerly_component, if_neg h]
  · norm_num [southerly_component]
  · intro df hd hne
    rw [calculate_southerly_wind, if_neg]
    simp [hd, List.isEmpty_iff, hne]

/-- Witness for the amended C3 at a 2 m/s wind from 150°. -/
theorem C3_witness :
    southerly_component ⟨2, 150⟩ = (⟨2, 150⟩ : WindRow).wind_speed :=
  (C3_southerly_closed_band ⟨2, 150⟩).1 (by norm_num)

/-- C4 counterexample: on `obsPair` (values 10 at hour 0 and 20 at hour 1) with
target instant 25 the selected observation is at hour 0, and the code's
baseline averages ALL observations with `time ≥ selected_time - 48h`,
including the later one, giving 15; the claim's window
`[selected_time - 48h, selected_time]` instead gives 10. -/
theorem C4_counterexample :
    (predict_fetsund_temperature obsPair 25).map Prediction.vorma_time = some 0
    ∧ (predict_fetsund_temperature obsPair 25).map Prediction.baseline_temp = some 15
    ∧ baseline_spec_window obsPair 0 = 10
    ∧ ((15 : ℚ) ≠ 10) := by
  norm_num [predict_fetsund_temperature, closestObs, obsPair, listMean, listSum, maxTime,
    calculate_confidence, time_confidence, TRAVEL_TIME_HOURS, TEMPERATURE_SURVIVAL,
    baseline_spec_window, List.filter]

/-- C4 amended: the baseline is the mean over the observations with timestamp
at or after `selected_time - 48h`, with NO upper bound (observations after the
selected one are included); and on a single-point series the baseline is that
point's value and the anomaly is 0. -/
theorem C4_baseline_lower_bound_only (df : List Obs) (T : ℚ) (pr : Prediction)
    (h : predict_fetsund_temperature df T = some pr) :
    pr.baseline_temp
      = listMean ((df.filter (fun o => pr.vorma_time - 48 ≤ o.time)).map Obs.value)
    ∧ (∀ o, df = [o] → pr.baseline_temp = o.value ∧ pr.anomaly = 0) := by
  rcases predict_spec h with ⟨closest, hc, hv, ht, hb, ha, _hp, _hconf⟩
  constructor
  · rw [ht]
    exact hb
  · intro o ho
    subst ho
    have hco : closest = o := by
      simp [closestObs] at hc
      exact hc.symm
    subst hco
    have hfil : List.filter (fun x => decide (closest.time - 48 ≤ x.time)) [closest]
        = [closest] := by
      simp [List.filter, sub_le_self closest.time (by norm_num : (0:ℚ) ≤ 48)]
    have hbase : pr.baseline_temp = closest.value := by
      rw [hb, hfil]
      simp [listMean, listSum]
    exact ⟨hbase, by rw [ha, hv, hbase, sub_self]⟩

/-- Witness for the amended C4 at `obsPair` with target instant 25. -/
theorem C4_witness :
    predPair.baseline_temp
      = listMean ((obsPair.filter
          (fun o => predPair.vorma_time - 48 ≤ o.time)).map Obs.value) :=
  (C4_baseline_lower_bound_only obsPair 25 predPair (by
    norm_num [predict_fetsund_temperature, closestObs, obsPair, predPair, listMean, listSum,
      maxTime, calculate_confidence, time_confidence, TRAVEL_TIME_HOURS,
      TEMPERATURE_SURVIVAL, List.filter])).1

/-- C5 counterexample: on the rising series `risingPair` (15 °C at hour 0,
20 °C at hour 1) `detect_temperature_drop` still reports an event of magnitude
5 whose maximum occurs at hour 1, AFTER the minimum at hour 0 (negative
duration), contradicting the claim that the maximum occurs at or before the
minimum. -/
theorem C5_counterexample :
    (detect_temperature_drop risingPair 2 6).map DropEvent.max_time = some 1
    ∧ (detect_temperature_drop risingPair 2 6).map DropEvent.min_time = some 0
    ∧ (detect_temperature_drop risingPair 2 6).map DropEvent.duration_hours = some (-1)
    ∧ ¬((1 : ℚ) ≤ 0) := by
  norm_num [detect_temperature_drop, risingPair, sortByTime, insertByTime, maxTime, maxValue,
    minValue, firstTimeWith, List.filter, List.find?]

/-- C5 amended: within the trailing window the detector computes
`drop = max(value) - min(value)` with no constraint on the temporal order of
the extrema; it returns an event exactly when the series has at least 2 points,
the window has at least 2 points, and `drop ≥ threshold_C`; the reported
timestamps belong to window observations attaining the extrema and the duration
is `min_time - max_time` (possibly negative); otherwise it returns no event. -/
theorem C5_drop_characterization (df : List Obs) (thr win : ℚ) :
    (detect_temperature_drop df thr win = none ↔
        df.length < 2 ∨ (recentWindow df win).length < 2
          ∨ maxValue (recentWindow df win) - minValue (recentWindow df win) < thr)
    ∧ ∀ e, detect_temperature_drop df thr win = some e →
        e.magnitude = maxValue (recentWindow df win) - minValue (recentWindow df win)
        ∧ thr ≤ e.magnitude
        ∧ e.max_temp = maxValue (recentWindow df win)
        ∧ e.min_temp = minValue (recentWindow df win)
        ∧ e.duration_hours = e.min_time - e.max_time
        ∧ (∃ a ∈ recentWindow df win, a.time = e.max_time
            ∧ a.value = maxValue (recentWindow df win))
        ∧ (∃ b ∈ recentWindow df win, b.time = e.min_time
            ∧ b.value = minValue (recentWindow df win)) := by
  rw [detect_eq]
  by_cases h1 : df.length < 2
  · simp [h1]
  · rw [if_neg h1]
    by_cases h2 : (recentWindow df win).length < 2
    · simp [h1, h2]
    · rw [if_neg h2]
      have hne : recentWindow df win ≠ [] := by
        intro he
        rw [he] at h2
        simp at h2
      by_cases h3 : thr ≤ maxValue (recentWindow df win) - minValue (recentWindow df win)
      · rw [if_pos h3]
        constructor
        · simp only [reduceCtorEq, false_iff]
          push_neg
          exact ⟨le_of_not_lt (fun hlt => h1 hlt), le_of_not_lt (fun hlt => h2 hlt), h3⟩
        · intro e he
          simp only [Option.some.injEq] at he
          subst he
          rcases firstTimeWith_spec (maxValue_mem hne) with ⟨a, hamem, hav, hat⟩
          rcases firstTimeWith_spec (minValue_mem hne) with ⟨b, hbmem, hbv, hbt⟩
          exact ⟨rfl, h3, rfl, rfl, rfl,
            ⟨a, hamem, hat.symm, hav⟩, ⟨b, hbmem, hbt.symm, hbv⟩⟩
      · rw [if_neg h3]
        simp [h1, h2, lt_of_not_le h3]

/-- Witness for the amended C5 at the falling series `fallingPair`. -/
theorem C5_witness :
    dropPair.magnitude
      = maxValue (recentWindow fallingPair 6) - minValue (recentWindow fallingPair 6) :=
  ((C5_drop_characterization fallingPair 2 6).2 dropPair (by
    norm_num [detect_temperature_drop, fallingPair, dropPair, sortByTime, insertByTime,
      maxTime, maxValue, minValue, firstTimeWith, List.filter, List.find?])).1

/-- C6 counterexample: with the series fixed (`singleObs`, one point at hour 0)
the confidence changes from 1/72 to 1/144 when only the target instant moves
from 25 to 75 — the staleness inside `calculate_confidence` is measured
against the passed `prediction_time = T - 25h`, not against the current
wall-clock time (which is not an input of the function at all), contradicting
the claim that it is relative to wall-clock and not relative to T. -/
theorem C6_counterexample :
    (predict_fetsund_temperature singleObs 25).map Prediction.confidence = some (1/72)
    ∧ (predict_fetsund_temperature singleObs 75).map Prediction.confidence = some (1/144)
    ∧ ((1 : ℚ)/72 ≠ 1/144) := by
  norm_num [predict_fetsund_temperature, closestObs, singleObs, listMean, listSum, maxTime,
    calculate_confidence, time_confidence, TRAVEL_TIME_HOURS, TEMPERATURE_SURVIVAL,
    List.filter]

/-- C6 amended: the confidence of every prediction equals
`time_confidence((T - 25h) - latest_observation_time) * min(len(series)/72, 1)`
— the step function is applied to the age of the LATEST observation relative
to `prediction_time = T - travel_time`, not to wall-clock time and not to the
selected observation. -/
theorem C6_confidence_formula (df : List Obs) (T : ℚ) (pr : Prediction)
    (h : predict_fetsund_temperature df T = some pr) :
    pr.confidence
      = time_confidence ((T - TRAVEL_TIME_HOURS) - maxTime df)
          * min ((df.length : ℚ) / 72) 1 := by
  rcases predict_spec h with ⟨closest, hc, _hv, _ht, _hb, _ha, _hp, hconf⟩
  have hne : df ≠ [] := by
    intro he
    subst he
    simp [closestObs] at hc
  rw [hconf]
  cases df with
  | nil => exact absurd rfl hne
  | cons x xs => rfl

/-- Witness for the amended C6 at `singleObs` with target instant 25. -/
theorem C6_witness :
    predSingle.confidence
      = time_confidence ((25 - TRAVEL_TIME_HOURS) - maxTime singleObs)
          * min ((singleObs.length : ℚ) / 72) 1 :=
  C6_confidence_formula singleObs 25 predSingle (by
    norm_num [predict_fetsund_temperature, closestObs, singleObs, predSingle, listMean,
      listSum, maxTime, calculate_confidence, time_confidence, TRAVEL_TIME_HOURS,
      TEMPERATURE_SURVIVAL, List.filter])

/-- C7 counterexample: on `rawMixed` with `now = 100` and `hours_back = 72`
(window `[28, 100]`), the in-window record at hour 99 whose quality code is
ABSENT is dropped (pandas `isin` evaluates NaN to False), and the record at
hour 110 — beyond the window end — is retained because only the lower time
bound is filtered; both contradict the claim. -/
theorem C7_counterexample :
    normalize_observations rawMixed 100 72 = [⟨110, 6, some 1⟩]
    ∧ (⟨99, 5, none⟩ : Obs) ∈ rawMixed
    ∧ (100 : ℚ) - 72 ≤ 99
    ∧ ¬((110 : ℚ) ≤ 100) := by
  norm_num [normalize_observations, rawMixed, quality_isin, ACCEPTED_QUALITIES, sortByTime,
    insertByTime, List.filter]

/-- C7 amended: every retained entry has a timestamp at or after the window
START (no upper-bound filter) and a PRESENT quality code in the accepted set 1
or 2 (records with an absent quality code are dropped, not retained); the
output is sorted ascending by timestamp; and normalization is idempotent. -/
theorem C7_normalize_invariants (raw : List Obs) (now hours_back : ℚ) :
    (∀ o ∈ normalize_observations raw now hours_back,
        now - hours_back ≤ o.time ∧ ∃ q, o.quality = some q ∧ (q = 1 ∨ q = 2))
    ∧ List.Sorted (fun a b : Obs => a.time ≤ b.time)
        (normalize_observations raw now hours_back)
    ∧ normalize_observations (normalize_observations raw now hours_back) now hours_back
        = normalize_observations raw now hours_back := by
  have hmem : ∀ o ∈ normalize_observations raw now hours_back,
      now - hours_back ≤ o.time
        ∧ quality_isin o.quality ACCEPTED_QUALITIES = true := by
    intro o ho
    simp only [normalize_observations] at ho
    rw [mem_sortByTime] at ho
    rcases List.mem_filter.mp ho with ⟨ho1, hq⟩
    rcases List.mem_filter.mp ho1 with ⟨_, ht⟩
    simp only [decide_eq_true_eq] at ht
    exact ⟨ht, hq⟩
  have hsorted : List.Sorted (fun a b : Obs => a.time ≤ b.time)
      (normalize_observations raw now hours_back) := sorted_sortByTime _
  have hfix : normalize_observations (normalize_observations raw now hours_back)
      now hours_back = normalize_observations raw now hours_back := by
    have e1 : List.filter (fun o => decide (now - hours_back ≤ o.time))
        (normalize_observations raw now hours_back)
        = normalize_observations raw now hours_back :=
      List.filter_eq_self.mpr (fun a ha => by simp [(hmem a ha).1])
    have e2 : List.filter (fun o => quality_isin o.quality ACCEPTED_QUALITIES)
        (normalize_observations raw now hours_back)
        = normalize_observations raw now hours_back :=
      List.filter_eq_self.mpr (fun a ha => (hmem a ha).2)
    show sortByTime (List.filter (fun o => quality_isin o.quality ACCEPTED_QUALITIES)
        (List.filter (fun o => decide (now - hours_back ≤ o.time))
          (normalize_observations raw now hours_back)))
      = normalize_observations raw now hours_back
    rw [e1, e2]
    exact sortByTime_eq_of_sorted hsorted
  refine ⟨?_, hsorted, hfix⟩
  intro o ho
  rcases hmem o ho with ⟨ht, hq⟩
  exact ⟨ht, quality_isin_accepted.mp hq⟩

/-- Witness for the amended C7: idempotence at the concrete input `rawMixed`. -/
theorem C7_witness :
    normalize_observations (normalize_observations rawMixed 100 72) 100 72
      = normalize_observations rawMixed 100 72 :=
  (C7_normalize_invariants rawMixed 100 72).2.2

/-- C8 counterexample: an HTTP 400 failure is caught and yields the empty
frame, but with NO diagnostic (the code treats 400 as a normal station winter
shutdown and stays silent), contradicting the claim that every transport
failure comes with a human-readable diagnostic. -/
theorem C8_counterexample :
    (fetch_nve_data (FetchOutcome.httpError 400) 100 72).1 = []
    ∧ (fetch_nve_data (FetchOutcome.httpError 400) 100 72).2 = none :=
  ⟨rfl, rfl⟩

/-- C8 amended: every non-success outcome (no data, HTTP error, timeout or any
other exception) is caught and yields the empty frame — the pipeline is never
aborted — and a human-readable diagnostic accompanies it exactly for HTTP
errors other than 400 and for non-HTTP exceptions; HTTP 400 is silent. -/
theorem C8_failure_policy (now hours_back : ℚ) (outcome : FetchOutcome)
    (h : ∀ observations, outcome ≠ FetchOutcome.success observations) :
    (fetch_nve_data outcome now hours_back).1 = []
    ∧ ((fetch_nve_data outcome now hours_back).2.isSome = true
        ↔ (∃ s, outcome = FetchOutcome.httpError s ∧ s ≠ 400)
          ∨ ∃ m, outcome = FetchOutcome.exceptionFail m) := by
  cases outcome with
  | success observations => exact absurd rfl (h observations)
  | noData => simp [fetch_nve_data]
  | httpError s =>
      by_cases hs : s = 400
      · subst hs
        simp [fetch_nve_data]
      · simp [fetch_nve_data, hs]
  | exceptionFail m => simp [fetch_nve_data]

/-- Witness for the amended C8 at a concrete non-HTTP exception. -/
theorem C8_witness :
    (fetch_nve_data (FetchOutcome.exceptionFail "connection timed out") 100 72).1 = [] :=
  (C8_failure_policy 100 72 (FetchOutcome.exceptionFail "connection timed out")
    (fun _ hcontra => FetchOutcome.noConfusion hcontra)).1

/-- C9: the confidence always lies in `[0, 1]`: it is 0 on the empty series and
otherwise the product of a time factor in `{1/2, 7/10, 9/10, 1}` and a
completeness factor `min(len/72, 1)` in `[0, 1]`; consequently every
Prediction produced by `predict_fetsund_temperature` carries a confidence in
`[0, 1]`. -/
theorem C9_confidence_bounds (df : List Obs) (t : ℚ) :
    0 ≤ calculate_confidence df t
    ∧ calculate_confidence df t ≤ 1
    ∧ (df = [] → calculate_confidence df t = 0)
    ∧ (df ≠ [] →
        (time_confidence (t - maxTime df) = 1/2 ∨ time_confidence (t - maxTime df) = 7/10
          ∨ time_confidence (t - maxTime df) = 9/10 ∨ time_confidence (t - maxTime df) = 1)
        ∧ 0 ≤ min ((df.length : ℚ) / 72) 1
        ∧ min ((df.length : ℚ) / 72) 1 ≤ 1
        ∧ calculate_confidence df t
            = time_confidence (t - maxTime df) * min ((df.length : ℚ) / 72) 1)
    ∧ ∀ (T : ℚ) (pr : Prediction), predict_fetsund_temperature df T = some pr →
        0 ≤ pr.confidence ∧ pr.confidence ≤ 1 := by
  refine ⟨calculate_confidence_nonneg df t, calculate_confidence_le_one df t, ?_, ?_, ?_⟩
  · intro he
    subst he
    rfl
  · intro hne
    cases df with
    | nil => exact absurd rfl hne
    | cons x xs =>
        exact ⟨time_confidence_cases _, completeness_nonneg _, min_le_right _ _, rfl⟩
  · intro T pr h
    rcases predict_spec h with ⟨closest, _hc, _hv, _ht, _hb, _ha, _hp, hconf⟩
    rw [hconf]
    exact ⟨calculate_confidence_nonneg _ _, calculate_confidence_le_one _ _⟩

/-- Witness for C9: the prediction on `singleObs` carries confidence in
`[0, 1]`. -/
theorem C9_witness :
    0 ≤ predSingle.confidence ∧ predSingle.confidence ≤ 1 :=
  (C9_confidence_bounds singleObs 0).2.2.2.2 25 predSingle (by
    norm_num [predict_fetsund_temperature, closestObs, singleObs, predSingle, listMean,
      listSum, maxTime, calculate_confidence, time_confidence, TRAVEL_TIME_HOURS,
      TEMPERATURE_SURVIVAL, List.filter])

/-- C10: when the forecast frame is empty or lacks the southerly-wind column,
`assess_risk_level` on a present prediction silently falls back to the
temperature/anomaly thresholds alone (southerly_risk = False) and never
returns UNKNOWN. -/
theorem C10_missing_southerly_fallback (p : Prediction) (f : Forecast)
    (h : f.n_rows = 0 ∨ f.southerly = none) :
    assess_risk_level (some p) f =
      (if p.predicted_temp < 14 ∨ p.anomaly < -3 then ("HØYRISIKOGRUPPE", "#dc3545")
       else if p.predicted_temp < 16 ∨ p.anomaly < -2 then ("MODERAT RISIKO", "#ffc107")
       else if p.predicted_temp < 18 then ("LAV RISIKO", "#17a2b8")
       else ("GODE FORHOLD", "#28a745"))
    ∧ (assess_risk_level (some p) f).1 ≠ "UNKNOWN" := by
  have hmain : assess_risk_level (some p) f =
      (if p.predicted_temp < 14 ∨ p.anomaly < -3 then ("HØYRISIKOGRUPPE", "#dc3545")
       else if p.predicted_temp < 16 ∨ p.anomaly < -2 then ("MODERAT RISIKO", "#ffc107")
       else if p.predicted_temp < 18 then ("LAV RISIKO", "#17a2b8")
       else ("GODE FORHOLD", "#28a745")) := by
    rcases h with h0 | hn
    · simp [assess_risk_level, h0]
    · simp [assess_risk_level, hn]
  refine ⟨hmain, ?_⟩
  rw [hmain]
  split_ifs <;> simp

/-- Witness for C10 at `predPair` and the empty forecast frame. -/
theorem C10_witness :
    (assess_risk_level (some predPair) ⟨0, none⟩).1 ≠ "UNKNOWN" :=
  (C10_missing_southerly_fallback predPair ⟨0, none⟩ (Or.inl rfl)).2

end Glommadyppen
